import Mathlib

/-!
# Verification of the BrainPy neuron-dynamics core

Shallow embedding of the `update` / `reset_state` logic of the neuron
models in `brainpy/_src/dyn/neurons/lif.py` (Lif, LifRef, ExpIF, AdExIF,
AdQuaIF, Gif, Izhikevich families, each in an LTC and a simplified
variant, some with a refractory extension).

Modelling choices, following the repository's own scope:
* Array operations are elementwise; every state tensor of one population
  is mutated by the same scalar formula per neuron, so per-neuron state is
  embedded as `ℚ` values and `bm.where` becomes `if`.
* The numerical integrator (`odeint`/`JointEq`) lives outside this
  repository; every update receives the one-step integrator as an
  explicit function argument, exactly as the models call
  `self.integral(state..., t, x, dt)`.
* `jax.lax.stop_gradient` is the identity on values (it only cuts
  gradient flow), embedded as `stopGradient`.
* The shared clock values `share.load('t')` and `share.load('dt')` are
  passed as explicit arguments `t`, `dt`.
* The surrogate spike function `spk_fun` is a pluggable argument in the
  source; it is an explicit function argument here.
-/

namespace BrainPy

/-- Value-level semantics of `jax.lax.stop_gradient`: the identity on its
argument (only the reverse-mode gradient is cut, which is outside this
embedding). -/
def stopGradient (x : ℚ) : ℚ := x

/-- Version of `stop_gradient` applied to a boolean mask. -/
def stopGradientB (b : Bool) : Bool := b

/-- Aggregation of the registered current inputs: the loop
`for out in self.cur_inputs.values(): I += out(V)` over the registered
callables, starting from the explicit input `I`. -/
def sumCurInputs (fs : List (ℚ → ℚ)) (V I : ℚ) : ℚ :=
  fs.foldl (fun acc f => acc + f V) I

/-! ## Lif family (`LifLTC`, `Lif`, `LifRefLTC`) -/

/-- Parameters of `LifLTC.__init__`. -/
structure LifParams where
  V_rest : ℚ
  V_reset : ℚ
  V_th : ℚ
  R : ℚ
  tau : ℚ
deriving DecidableEq

/-- The constructor defaults of `LifLTC`:
`V_rest=0, V_reset=-5, V_th=20, R=1, tau=10`. -/
def lifDefaultParams : LifParams :=
  { V_rest := 0, V_reset := -5, V_th := 20, R := 1, tau := 10 }

/-- Embedding of `LifLTC.derivative`: aggregates the registered current inputs into `I`
and returns `(-V + V_rest + R * I) / tau`. -/
def lifDerivative (p : LifParams) (fs : List (ℚ → ℚ)) (V t I : ℚ) : ℚ :=
  (-V + p.V_rest + p.R * sumCurInputs fs V I) / p.tau

/-- State of a `LifLTC` neuron in (non-training) inference mode:
membrane potential `V` and the boolean spike tensor. -/
structure LifStateI where
  V : ℚ
  spike : Bool
deriving DecidableEq

/-- State of a `LifLTC` neuron in training mode: the spike tensor holds
the graded surrogate value. -/
structure LifStateT where
  V : ℚ
  spike : ℚ
deriving DecidableEq

/-- Embedding of `LifLTC.update`, inference branch:
integrate `V`, then `spike = V >= V_th`, `V = where(spike, V_reset, V)`,
commit both and return the spike tensor.  The returned value is `some`
spike (a Python function returning a value). -/
def lifLTCUpdateI (p : LifParams) (integ : ℚ → ℚ → ℚ → ℚ → ℚ)
    (t dt x : ℚ) (s : LifStateI) : LifStateI × Option Bool :=
  let V := integ s.V t x dt
  let spike := decide (p.V_th ≤ V)
  let V := if spike then p.V_reset else V
  ({ V := V, spike := spike }, some spike)

/-- Embedding of `LifLTC.update`, training branch:
`spike = spk_fun(V - V_th)` (optionally `stop_gradient`-wrapped when
`detach_spk`), then the soft reset `V += (V_reset - V) * spike`. -/
def lifLTCUpdateT (p : LifParams) (spkFun : ℚ → ℚ) (detachSpk : Bool)
    (integ : ℚ → ℚ → ℚ → ℚ → ℚ) (t dt x : ℚ) (s : LifStateT) :
    LifStateT × Option ℚ :=
  let V := integ s.V t x dt
  let spike := spkFun (V - p.V_th)
  let spike := if detachSpk then stopGradient spike else spike
  let V := V + (p.V_reset - V) * spike
  ({ V := V, spike := spike }, some spike)

/-- Embedding of `Lif.update`, inference mode: pre-aggregates the registered current
inputs at the pre-step voltage, delegates to `LifLTC.update`
(`super().update(x)`), and falls off the end of the function body —
Python therefore returns `None`, embedded as `none`. -/
def lifUpdateI (p : LifParams) (integ : ℚ → ℚ → ℚ → ℚ → ℚ)
    (fs : List (ℚ → ℚ)) (t dt x : ℚ) (s : LifStateI) :
    LifStateI × Option Bool :=
  let x := sumCurInputs fs s.V x
  let r := lifLTCUpdateI p integ t dt x s
  (r.1, none)

/-- Embedding of `LifLTC.reset_state`: `V` from the `V` initializer, `spike` zero-filled;
the previous state is not read. -/
def lifLTCResetState (Vinit : ℚ) (s : LifStateI) : LifStateI :=
  { V := Vinit, spike := false }

/-- A constant one-step integrator, used to instantiate theorems at
concrete inputs. -/
def constInteg (c : ℚ) : ℚ → ℚ → ℚ → ℚ → ℚ := fun _ _ _ _ => c

end BrainPy

namespace BrainPy

/-! ## Lif refractory variant (`LifRefLTC`) -/

/-- Parameters of `LifRefLTC.__init__` (those of `LifLTC` plus `tau_ref`). -/
structure LifRefParams where
  V_rest : ℚ
  V_reset : ℚ
  V_th : ℚ
  R : ℚ
  tau : ℚ
  tau_ref : ℚ
deriving DecidableEq

/-- Inference-mode state of `LifRefLTC`: `V`, boolean `spike`,
`t_last_spike`, and the optional explicit `refractory` flag (inert when
`ref_var` is false, mirroring the absent attribute). -/
structure LifRefStateI where
  V : ℚ
  spike : Bool
  tLastSpike : ℚ
  refrFlag : Bool
deriving DecidableEq

/-- Training-mode state of `LifRefLTC` (graded spike value). -/
structure LifRefStateT where
  V : ℚ
  spike : ℚ
  tLastSpike : ℚ
  refrFlag : Bool
deriving DecidableEq

/-- Embedding of `LifRefLTC.update`, inference branch: integrate, gate by
`refractory = (t - t_last_spike) <= tau_ref` (freezing `V` to its
pre-step value), then spike/reset, the optional `refractory` variable,
and `t_last_spike = where(spike, t, t_last_spike)`. -/
def lifRefLTCUpdateI (p : LifRefParams) (refVar : Bool)
    (integ : ℚ → ℚ → ℚ → ℚ → ℚ) (t dt x : ℚ) (s : LifRefStateI) :
    LifRefStateI × Option Bool :=
  let V := integ s.V t x dt
  let refractory := decide (t - s.tLastSpike ≤ p.tau_ref)
  let V := if refractory then s.V else V
  let spike := decide (p.V_th ≤ V)
  let V := if spike then p.V_reset else V
  let refrFlag := if refVar then (refractory || spike) else s.refrFlag
  let tLastSpike := if spike then t else s.tLastSpike
  ({ V := V, spike := spike, tLastSpike := tLastSpike, refrFlag := refrFlag },
   some spike)

/-- Embedding of `LifRefLTC.update`, training branch: the refractory mask and all
bookkeeping go through `stop_gradient`; the spike used for bookkeeping is
`spike_no_grad > 0`. -/
def lifRefLTCUpdateT (p : LifRefParams) (refVar detachSpk : Bool)
    (spkFun : ℚ → ℚ) (integ : ℚ → ℚ → ℚ → ℚ → ℚ) (t dt x : ℚ)
    (s : LifRefStateT) : LifRefStateT × Option ℚ :=
  let V := integ s.V t x dt
  let refractory := stopGradientB (decide (t - s.tLastSpike ≤ p.tau_ref))
  let V := if refractory then s.V else V
  let spike := spkFun (V - p.V_th)
  let spikeNoGrad := if detachSpk then stopGradient spike else spike
  let V := V + (p.V_reset - V) * spikeNoGrad
  let spikeB := decide (0 < spikeNoGrad)
  let refrFlag := if refVar then stopGradientB (refractory || spikeB) else s.refrFlag
  let tLastSpike := stopGradient (if spikeB then t else s.tLastSpike)
  ({ V := V, spike := spike, tLastSpike := tLastSpike, refrFlag := refrFlag },
   some spike)

/-- Embedding of `LifRefLTC.reset_state`: `V` from its initializer, `spike` zero-filled,
`t_last_spike` one-filled then `fill_(-1e7)`, and — only when `ref_var` —
the `refractory` flag zero-filled.  The previous state is not read. -/
def lifRefResetState (refVar : Bool) (Vinit : ℚ) (s : LifRefStateI) :
    LifRefStateI :=
  { V := Vinit, spike := false, tLastSpike := -10000000,
    refrFlag := if refVar then false else s.refrFlag }

/-- The inference-mode trajectory of a `LifRefLTC` population driven by
the external clock grid `t0 + k*dt` with per-step inputs `xs`. -/
def lifRefTrajI (p : LifRefParams) (refVar : Bool)
    (integ : ℚ → ℚ → ℚ → ℚ → ℚ) (xs : ℕ → ℚ) (t0 dt : ℚ)
    (s0 : LifRefStateI) : ℕ → LifRefStateI
  | 0 => s0
  | k + 1 =>
      (lifRefLTCUpdateI p refVar integ (t0 + (k + 1 : ℕ) * dt) dt (xs (k + 1))
        (lifRefTrajI p refVar integ xs t0 dt s0 k)).1

/-! ## Adaptive exponential family (`AdExIFLTC`, `AdExIFRefLTC`) -/

/-- Parameters of `AdExIFLTC.__init__`. -/
structure AdExParams where
  V_rest : ℚ
  V_reset : ℚ
  V_th : ℚ
  V_T : ℚ
  delta_T : ℚ
  a : ℚ
  b : ℚ
  tau : ℚ
  tau_w : ℚ
  R : ℚ
deriving DecidableEq

/-- Inference-mode state of a two-variable adaptive neuron (`V`, `w`),
shared by `AdExIFLTC` and `AdQuaIFLTC`. -/
structure AdStateI where
  V : ℚ
  w : ℚ
  spike : Bool
deriving DecidableEq

/-- Training-mode state of a two-variable adaptive neuron. -/
structure AdStateT where
  V : ℚ
  w : ℚ
  spike : ℚ
deriving DecidableEq

/-- Embedding of `AdExIFLTC.update`, inference branch: joint integration of `(V, w)`,
then `spike = V >= V_th`, `V = where(spike, V_reset, V)`,
`w = where(spike, w + b, w)`. -/
def adExIFLTCUpdateI (p : AdExParams)
    (integ : ℚ → ℚ → ℚ → ℚ → ℚ → ℚ × ℚ) (t dt x : ℚ) (s : AdStateI) :
    AdStateI × Option Bool :=
  let Vw := integ s.V s.w t x dt
  let V := Vw.1
  let w := Vw.2
  let spike := decide (p.V_th ≤ V)
  let V := if spike then p.V_reset else V
  let w := if spike then w + p.b else w
  ({ V := V, w := w, spike := spike }, some spike)

/-- Embedding of `AdExIFLTC.update`, training branch: soft reset
`V += (V_reset - V) * spike` and adaptation jump `w += b * spike`. -/
def adExIFLTCUpdateT (p : AdExParams) (spkFun : ℚ → ℚ) (detachSpk : Bool)
    (integ : ℚ → ℚ → ℚ → ℚ → ℚ → ℚ × ℚ) (t dt x : ℚ) (s : AdStateT) :
    AdStateT × Option ℚ :=
  let Vw := integ s.V s.w t x dt
  let V := Vw.1
  let w := Vw.2
  let spike := spkFun (V - p.V_th)
  let spike := if detachSpk then stopGradient spike else spike
  let V := V + (p.V_reset - V) * spike
  let w := w + p.b * spike
  ({ V := V, w := w, spike := spike }, some spike)

/-- Parameters of `AdExIFRefLTC.__init__` (`AdExIFLTC` plus `tau_ref`). -/
structure AdExRefParams where
  V_rest : ℚ
  V_reset : ℚ
  V_th : ℚ
  V_T : ℚ
  delta_T : ℚ
  a : ℚ
  b : ℚ
  tau : ℚ
  tau_w : ℚ
  R : ℚ
  tau_ref : ℚ
deriving DecidableEq

/-- Inference-mode state of `AdExIFRefLTC`. -/
structure AdExRefStateI where
  V : ℚ
  w : ℚ
  spike : Bool
  tLastSpike : ℚ
  refrFlag : Bool
deriving DecidableEq

/-- Embedding of `AdExIFRefLTC.update`, inference branch: the refractory gate
`V = where((t - t_last_spike) <= tau_ref, V_old, V)` touches only the
membrane potential; `w` keeps its integrated value into the spike stage. -/
def adExIFRefLTCUpdateI (p : AdExRefParams) (refVar : Bool)
    (integ : ℚ → ℚ → ℚ → ℚ → ℚ → ℚ × ℚ) (t dt x : ℚ) (s : AdExRefStateI) :
    AdExRefStateI × Option Bool :=
  let Vw := integ s.V s.w t x dt
  let V := Vw.1
  let w := Vw.2
  let refractory := decide (t - s.tLastSpike ≤ p.tau_ref)
  let V := if refractory then s.V else V
  let spike := decide (p.V_th ≤ V)
  let V := if spike then p.V_reset else V
  let w := if spike then w + p.b else w
  let refrFlag := if refVar then (refractory || spike) else s.refrFlag
  let tLastSpike := if spike then t else s.tLastSpike
  ({ V := V, w := w, spike := spike, tLastSpike := tLastSpike,
     refrFlag := refrFlag }, some spike)

/-! ## Adaptive quadratic family (`AdQuaIFLTC`) -/

/-- Parameters of `AdQuaIFLTC.__init__`. -/
structure AdQuaParams where
  V_rest : ℚ
  V_reset : ℚ
  V_th : ℚ
  V_c : ℚ
  a : ℚ
  b : ℚ
  c : ℚ
  tau : ℚ
  tau_w : ℚ
deriving DecidableEq

/-- Embedding of `AdQuaIFLTC.update`, inference branch (same spike/reset payload as
`AdExIFLTC`: voltage overwrite and `w = where(spike, w + b, w)`). -/
def adQuaIFLTCUpdateI (p : AdQuaParams)
    (integ : ℚ → ℚ → ℚ → ℚ → ℚ → ℚ × ℚ) (t dt x : ℚ) (s : AdStateI) :
    AdStateI × Option Bool :=
  let Vw := integ s.V s.w t x dt
  let V := Vw.1
  let w := Vw.2
  let spike := decide (p.V_th ≤ V)
  let V := if spike then p.V_reset else V
  let w := if spike then w + p.b else w
  ({ V := V, w := w, spike := spike }, some spike)

/-- Embedding of `AdQuaIFLTC.update`, training branch (`V += (V_reset - V) * spike`,
`w += b * spike`). -/
def adQuaIFLTCUpdateT (p : AdQuaParams) (spkFun : ℚ → ℚ) (detachSpk : Bool)
    (integ : ℚ → ℚ → ℚ → ℚ → ℚ → ℚ × ℚ) (t dt x : ℚ) (s : AdStateT) :
    AdStateT × Option ℚ :=
  let Vw := integ s.V s.w t x dt
  let V := Vw.1
  let w := Vw.2
  let spike := spkFun (V - p.V_th)
  let spike := if detachSpk then stopGradient spike else spike
  let V := V + (p.V_reset - V) * spike
  let w := w + p.b * spike
  ({ V := V, w := w, spike := spike }, some spike)

/-! ## Izhikevich refractory variant (`IzhikevichRefLTC`) -/

/-- Parameters of `IzhikevichRefLTC.__init__`. -/
structure IzhRefParams where
  V_th : ℚ
  a : ℚ
  b : ℚ
  c : ℚ
  d : ℚ
  tau : ℚ
  R : ℚ
  tau_ref : ℚ
deriving DecidableEq

/-- Inference-mode state of `IzhikevichRefLTC` (`V`, recovery variable `u`). -/
structure IzhRefStateI where
  V : ℚ
  u : ℚ
  spike : Bool
  tLastSpike : ℚ
  refrFlag : Bool
deriving DecidableEq

/-- Embedding of `IzhikevichRefLTC.update`, inference branch: the refractory gate
freezes only `V`; `u` keeps its integrated value (`u + d` on spike). -/
def izhikevichRefLTCUpdateI (p : IzhRefParams) (refVar : Bool)
    (integ : ℚ → ℚ → ℚ → ℚ → ℚ → ℚ × ℚ) (t dt x : ℚ) (s : IzhRefStateI) :
    IzhRefStateI × Option Bool :=
  let Vu := integ s.V s.u t x dt
  let V := Vu.1
  let u := Vu.2
  let refractory := decide (t - s.tLastSpike ≤ p.tau_ref)
  let V := if refractory then s.V else V
  let spike := decide (p.V_th ≤ V)
  let V := if spike then p.c else V
  let u := if spike then u + p.d else u
  let refrFlag := if refVar then (refractory || spike) else s.refrFlag
  let tLastSpike := if spike then t else s.tLastSpike
  ({ V := V, u := u, spike := spike, tLastSpike := tLastSpike,
     refrFlag := refrFlag }, some spike)

/-! ## Generalized integrate-and-fire family (`GifLTC`, `GifRefLTC`) -/

/-- Parameters of `GifLTC.__init__`. -/
structure GifParams where
  V_rest : ℚ
  V_reset : ℚ
  V_th_inf : ℚ
  V_th_reset : ℚ
  R : ℚ
  tau : ℚ
  a : ℚ
  b : ℚ
  k1 : ℚ
  k2 : ℚ
  R1 : ℚ
  R2 : ℚ
  A1 : ℚ
  A2 : ℚ
deriving DecidableEq

/-- Inference-mode state of `GifLTC`: internal currents `I1`, `I2`, the
dynamic threshold `Vth`, and `V`. -/
structure GifStateI where
  I1 : ℚ
  I2 : ℚ
  Vth : ℚ
  V : ℚ
  spike : Bool
deriving DecidableEq

/-- Training-mode state of `GifLTC`. -/
structure GifStateT where
  I1 : ℚ
  I2 : ℚ
  Vth : ℚ
  V : ℚ
  spike : ℚ
deriving DecidableEq

/-- Embedding of `GifLTC.update`, inference branch.  Note the spike test
`spike = self.V_th <= V` compares the integrated voltage against the
*pre-step* threshold variable, while the clamp
`V_th = where(spike, maximum(V_th_reset, V_th), V_th)` uses the
integrated (decayed) threshold. -/
def gifLTCUpdateI (p : GifParams)
    (integ : ℚ → ℚ → ℚ → ℚ → ℚ → ℚ → ℚ → ℚ × ℚ × ℚ × ℚ) (t dt x : ℚ)
    (s : GifStateI) : GifStateI × Option Bool :=
  let r := integ s.I1 s.I2 s.Vth s.V t x dt
  let I1 := r.1
  let I2 := r.2.1
  let Vth := r.2.2.1
  let V := r.2.2.2
  let spike := decide (s.Vth ≤ V)
  let V := if spike then p.V_reset else V
  let I1 := if spike then p.R1 * I1 + p.A1 else I1
  let I2 := if spike then p.R2 * I2 + p.A2 else I2
  let Vth := if spike then max p.V_th_reset Vth else Vth
  ({ I1 := I1, I2 := I2, Vth := Vth, V := V, spike := spike }, some spike)

/-- Embedding of `GifLTC.update`, training branch: all reset payloads are soft blends;
in particular the threshold update is
`reset_th = spk_fun(V_th_reset - V_th) * spike;
 V_th += reset_th * (V_th_reset - V_th)`. -/
def gifLTCUpdateT (p : GifParams) (spkFun : ℚ → ℚ) (detachSpk : Bool)
    (integ : ℚ → ℚ → ℚ → ℚ → ℚ → ℚ → ℚ → ℚ × ℚ × ℚ × ℚ) (t dt x : ℚ)
    (s : GifStateT) : GifStateT × Option ℚ :=
  let r := integ s.I1 s.I2 s.Vth s.V t x dt
  let I1 := r.1
  let I2 := r.2.1
  let Vth := r.2.2.1
  let V := r.2.2.2
  let spike := spkFun (V - s.Vth)
  let spike := if detachSpk then stopGradient spike else spike
  let V := V + (p.V_reset - V) * spike
  let I1 := I1 + spike * (p.R1 * I1 + p.A1 - I1)
  let I2 := I2 + spike * (p.R2 * I2 + p.A2 - I2)
  let resetTh := spkFun (p.V_th_reset - Vth) * spike
  let Vth := Vth + resetTh * (p.V_th_reset - Vth)
  ({ I1 := I1, I2 := I2, Vth := Vth, V := V, spike := spike }, some spike)

/-- Parameters of `GifRefLTC.__init__` (`GifLTC` plus `tau_ref`). -/
structure GifRefParams where
  V_rest : ℚ
  V_reset : ℚ
  V_th_inf : ℚ
  V_th_reset : ℚ
  R : ℚ
  tau : ℚ
  a : ℚ
  b : ℚ
  k1 : ℚ
  k2 : ℚ
  R1 : ℚ
  R2 : ℚ
  A1 : ℚ
  A2 : ℚ
  tau_ref : ℚ
deriving DecidableEq

/-- Inference-mode state of `GifRefLTC`. -/
structure GifRefStateI where
  I1 : ℚ
  I2 : ℚ
  Vth : ℚ
  V : ℚ
  spike : Bool
  tLastSpike : ℚ
  refrFlag : Bool
deriving DecidableEq

/-- Embedding of `GifRefLTC.update`, inference branch: the refractory gate replaces
only `V` by its pre-step value; `I1`, `I2` and the dynamic threshold keep
their integrated values into the spike stage. -/
def gifRefLTCUpdateI (p : GifRefParams) (refVar : Bool)
    (integ : ℚ → ℚ → ℚ → ℚ → ℚ → ℚ → ℚ → ℚ × ℚ × ℚ × ℚ) (t dt x : ℚ)
    (s : GifRefStateI) : GifRefStateI × Option Bool :=
  let r := integ s.I1 s.I2 s.Vth s.V t x dt
  let I1 := r.1
  let I2 := r.2.1
  let Vth := r.2.2.1
  let V := r.2.2.2
  let refractory := decide (t - s.tLastSpike ≤ p.tau_ref)
  let V := if refractory then s.V else V
  let spike := decide (s.Vth ≤ V)
  let V := if spike then p.V_reset else V
  let I1 := if spike then p.R1 * I1 + p.A1 else I1
  let I2 := if spike then p.R2 * I2 + p.A2 else I2
  let Vth := if spike then max p.V_th_reset Vth else Vth
  let refrFlag := if refVar then (refractory || spike) else s.refrFlag
  let tLastSpike := if spike then t else s.tLastSpike
  ({ I1 := I1, I2 := I2, Vth := Vth, V := V, spike := spike,
     tLastSpike := tLastSpike, refrFlag := refrFlag }, some spike)

/-- A spec-compliant surrogate spike function used to instantiate
training-mode theorems: piecewise-linear, monotonically non-decreasing,
with values in `[0, 1]`, saturating to `0` as the argument goes to `-∞`
and to `1` as it goes to `+∞`. -/
def softStep (x : ℚ) : ℚ := min 1 (max 0 ((x + 100) / 200))

/-- A constant one-step joint integrator for two-variable models. -/
def constInteg2 (cV cw : ℚ) : ℚ → ℚ → ℚ → ℚ → ℚ → ℚ × ℚ :=
  fun _ _ _ _ _ => (cV, cw)

/-- A constant one-step joint integrator for the four-variable Gif model
(in the order `I1, I2, V_th, V`). -/
def constInteg4 (cI1 cI2 cVth cV : ℚ) :
    ℚ → ℚ → ℚ → ℚ → ℚ → ℚ → ℚ → ℚ × ℚ × ℚ × ℚ :=
  fun _ _ _ _ _ _ _ => (cI1, cI2, cVth, cV)

/-- The constructor defaults of `GifLTC`:
`V_rest=-70, V_reset=-70, V_th_inf=-50, V_th_reset=-60, R=20, tau=20,
a=0, b=0.01, k1=0.2, k2=0.02, R1=0, R2=1, A1=0, A2=0`. -/
def gifDefaultParams : GifParams :=
  { V_rest := -70, V_reset := -70, V_th_inf := -50, V_th_reset := -60,
    R := 20, tau := 20, a := 0, b := 1/100, k1 := 1/5, k2 := 1/50,
    R1 := 0, R2 := 1, A1 := 0, A2 := 0 }

/-! ## Theorems -/

/-- C1.  The method `LifLTC.update` performs the step and returns the spike tensor it
commits (`some true` here), but the simplified variant `Lif.update`
pre-aggregates the registered current inputs and delegates to
`LifLTC.update` without a `return` statement: the step is performed and
the spike state is committed identically, yet Python returns `None`
(embedded `none`), contradicting the claimed `update(...) -> spike`
contract for the simplified variants. -/
theorem lif_update_commits_spike_but_returns_none :
    lifUpdateI lifDefaultParams (constInteg 22) [fun v => v] 0 (1/10) 2
        { V := 18, spike := false }
      = ({ V := -5, spike := true }, none) ∧
    lifLTCUpdateI lifDefaultParams (constInteg 22) 0 (1/10) (2 + 18)
        { V := 18, spike := false }
      = ({ V := -5, spike := true }, some true) := by
  constructor <;> rfl

/-- C2.  Inference mode, `V_th = 20`, `V_reset = -5`: if one update step
integrates the voltage from `18` to `22`, the returned and committed
spike is `true` and the committed voltage is exactly `-5`; whenever the
integrated voltage stays below `V_th`, the spike is `false` and the
integrated voltage is committed unchanged. -/
theorem lifLTC_threshold_crossing_inference (p : LifParams)
    (integ : ℚ → ℚ → ℚ → ℚ → ℚ) (t dt x : ℚ) (s : LifStateI)
    (hth : p.V_th = 20) (hreset : p.V_reset = -5) :
    (s.V = 18 → integ s.V t x dt = 22 →
      lifLTCUpdateI p integ t dt x s
        = ({ V := -5, spike := true }, some true)) ∧
    (integ s.V t x dt < 20 →
      lifLTCUpdateI p integ t dt x s
        = ({ V := integ s.V t x dt, spike := false }, some false)) := by
  constructor
  · intro _ h22
    simp [lifLTCUpdateI, h22, hth, hreset]
    norm_num
  · intro hlt
    have hns : ¬ (p.V_th ≤ integ s.V t x dt) := by rw [hth]; exact not_le.mpr hlt
    simp [lifLTCUpdateI, hns]

/-- Witness for C2 at concrete inputs: a constant integrator sending
`18 ↦ 22` spikes and resets to `-5`; one sending `18 ↦ 3` commits `3`
without a spike. -/
theorem lifLTC_threshold_crossing_inference_witness :
    lifLTCUpdateI lifDefaultParams (constInteg 22) 0 1 0 { V := 18, spike := false }
      = ({ V := -5, spike := true }, some true) ∧
    lifLTCUpdateI lifDefaultParams (constInteg 3) 0 1 0 { V := 18, spike := false }
      = ({ V := 3, spike := false }, some false) :=
  ⟨(lifLTC_threshold_crossing_inference lifDefaultParams (constInteg 22) 0 1 0
      { V := 18, spike := false } rfl rfl).1 rfl (by decide),
   (lifLTC_threshold_crossing_inference lifDefaultParams (constInteg 3) 0 1 0
      { V := 18, spike := false } rfl rfl).2 (by decide)⟩

/-- C3.  Training mode, `LifLTC.update`: the committed and returned spike
equals the surrogate applied to the integrated voltage minus `V_th`, and
the committed voltage equals the soft reset blend
`V + (V_reset - V) * spike` where `V` is the integrated (pre-reset)
voltage — for either value of `detach_spk`, since `stop_gradient` is the
identity on values. -/
theorem lifLTC_training_soft_reset (p : LifParams) (spkFun : ℚ → ℚ)
    (detachSpk : Bool) (integ : ℚ → ℚ → ℚ → ℚ → ℚ) (t dt x : ℚ)
    (s : LifStateT) :
    lifLTCUpdateT p spkFun detachSpk integ t dt x s
      = ({ V := integ s.V t x dt
             + (p.V_reset - integ s.V t x dt)
               * spkFun (integ s.V t x dt - p.V_th),
           spike := spkFun (integ s.V t x dt - p.V_th) },
         some (spkFun (integ s.V t x dt - p.V_th))) := by
  cases detachSpk <;> rfl

/-- C6.  Adaptive models (`AdExIFLTC`, `AdQuaIFLTC`): relative to the
integrated (pre-reset) adaptation value, a spike raises `w` by exactly
`b` in inference mode (else leaves it at the integrated value), and by
`b * spike_value` in training mode. -/
theorem adaptive_w_spike_jump (pE : AdExParams) (pQ : AdQuaParams)
    (spkFun : ℚ → ℚ) (detachSpk : Bool)
    (integ : ℚ → ℚ → ℚ → ℚ → ℚ → ℚ × ℚ) (t dt x : ℚ)
    (sI : AdStateI) (sT : AdStateT) :
    ((adExIFLTCUpdateI pE integ t dt x sI).1.w - (integ sI.V sI.w t x dt).2
       = (if (adExIFLTCUpdateI pE integ t dt x sI).1.spike then pE.b else 0)) ∧
    ((adExIFLTCUpdateT pE spkFun detachSpk integ t dt x sT).1.w
        - (integ sT.V sT.w t x dt).2
       = pE.b * (adExIFLTCUpdateT pE spkFun detachSpk integ t dt x sT).1.spike) ∧
    ((adQuaIFLTCUpdateI pQ integ t dt x sI).1.w - (integ sI.V sI.w t x dt).2
       = (if (adQuaIFLTCUpdateI pQ integ t dt x sI).1.spike then pQ.b else 0)) ∧
    ((adQuaIFLTCUpdateT pQ spkFun detachSpk integ t dt x sT).1.w
        - (integ sT.V sT.w t x dt).2
       = pQ.b * (adQuaIFLTCUpdateT pQ spkFun detachSpk integ t dt x sT).1.spike) := by
  refine ⟨?_, ?_, ?_, ?_⟩
  · simp only [adExIFLTCUpdateI]
    split <;> ring
  · cases detachSpk <;> · simp only [adExIFLTCUpdateT, stopGradient]; ring
  · simp only [adQuaIFLTCUpdateI]
    split <;> ring
  · cases detachSpk <;> · simp only [adQuaIFLTCUpdateT, stopGradient]; ring

/-- C8.  `reset_state` reads no prior state: resetting, updating, and
resetting again yields exactly the state of a single reset, whose fields
are each initializer's direct output (`V` from the `V` initializer,
`spike` zero-filled, `t_last_spike` filled with `-1e7`, the `refractory`
flag zero-filled when `ref_var` is set and untouched otherwise); the same
holds for `LifLTC.reset_state` from any two prior states. -/
theorem reset_state_idempotent (refVar : Bool) (v0 : ℚ) (p : LifRefParams)
    (integ : ℚ → ℚ → ℚ → ℚ → ℚ) (t dt x : ℚ) (s : LifRefStateI)
    (sL s2 : LifStateI) :
    lifRefResetState refVar v0
        ((lifRefLTCUpdateI p refVar integ t dt x (lifRefResetState refVar v0 s)).1)
      = lifRefResetState refVar v0 s ∧
    (lifRefResetState refVar v0 s).V = v0 ∧
    (lifRefResetState refVar v0 s).spike = false ∧
    (lifRefResetState refVar v0 s).tLastSpike = -10000000 ∧
    (lifRefResetState refVar v0 s).refrFlag
      = (if refVar then false else s.refrFlag) ∧
    lifLTCResetState v0 sL = lifLTCResetState v0 s2 ∧
    lifLTCResetState v0 sL = { V := v0, spike := false } := by
  refine ⟨?_, rfl, rfl, rfl, rfl, rfl, rfl⟩
  cases refVar <;> rfl

/-- C4.  `LifRefLTC`, inference mode: a neuron is refractory exactly when
`(t - t_last_spike) ≤ tau_ref` — while refractory (and subthreshold) the
freshly integrated voltage is discarded and the pre-step voltage
committed, otherwise the integrated voltage goes through the spike/reset
stage.  Consequently, starting from a spike at time `t0` with
`tau_ref = 5` (a whole number `m` of steps, `m * dt = 5`), the voltage
stays frozen at `V_reset` for every step time `t0 + k*dt ≤ t0 + 5` and is
integrated normally again at `t0 + 5 + dt`. -/
theorem lifRefLTC_refractory_window (p : LifRefParams) (refVar : Bool)
    (integ : ℚ → ℚ → ℚ → ℚ → ℚ) :
    (∀ t dt x s, t - s.tLastSpike ≤ p.tau_ref → s.V < p.V_th →
        (lifRefLTCUpdateI p refVar integ t dt x s).1.V = s.V) ∧
    (∀ t dt x s, ¬ t - s.tLastSpike ≤ p.tau_ref →
        (lifRefLTCUpdateI p refVar integ t dt x s).1.V
          = (if p.V_th ≤ integ s.V t x dt then p.V_reset
             else integ s.V t x dt)) ∧
    (∀ (xs : ℕ → ℚ) (t0 dt : ℚ) (m : ℕ) (flag0 : Bool),
        p.tau_ref = 5 → p.V_reset < p.V_th → 0 < dt → (m : ℚ) * dt = 5 →
        (∀ k : ℕ, 1 ≤ k → k ≤ m →
            (lifRefTrajI p refVar integ xs t0 dt
                { V := p.V_reset, spike := true, tLastSpike := t0,
                  refrFlag := flag0 } k).V = p.V_reset) ∧
        (lifRefTrajI p refVar integ xs t0 dt
            { V := p.V_reset, spike := true, tLastSpike := t0,
              refrFlag := flag0 } (m + 1)).V
          = (if p.V_th ≤ integ p.V_reset (t0 + ((m + 1 : ℕ) : ℚ) * dt)
                          (xs (m + 1)) dt
             then p.V_reset
             else integ p.V_reset (t0 + ((m + 1 : ℕ) : ℚ) * dt)
                    (xs (m + 1)) dt)) := by
  refine ⟨?_, ?_, ?_⟩
  · intro t dt x s h1 h2
    simp [lifRefLTCUpdateI, h1, not_le.mpr h2]
  · intro t dt x s h1
    simp [lifRefLTCUpdateI, h1]
  · intro xs t0 dt m flag0 htau hlt hdt hm
    have key : ∀ k : ℕ, k ≤ m →
        (lifRefTrajI p refVar integ xs t0 dt
            { V := p.V_reset, spike := true, tLastSpike := t0,
              refrFlag := flag0 } k).V = p.V_reset ∧
        (lifRefTrajI p refVar integ xs t0 dt
            { V := p.V_reset, spike := true, tLastSpike := t0,
              refrFlag := flag0 } k).tLastSpike = t0 := by
      intro k
      induction k with
      | zero => exact fun _ => ⟨rfl, rfl⟩
      | succ n ih =>
        intro hnm
        obtain ⟨hV, hT⟩ := ih (Nat.le_of_succ_le hnm)
        have hrefr : ((n : ℚ) + 1) * dt ≤ p.tau_ref := by
          rw [htau]
          calc ((n : ℚ) + 1) * dt ≤ (m : ℚ) * dt := by
                have hc : ((n : ℚ) + 1) ≤ (m : ℚ) := by exact_mod_cast hnm
                exact mul_le_mul_of_nonneg_right hc hdt.le
            _ = 5 := hm
        simp [lifRefTrajI, lifRefLTCUpdateI, hV, hT, hrefr, not_le.mpr hlt]
    refine ⟨fun k _ hk => (key k hk).1, ?_⟩
    obtain ⟨hVm, hTm⟩ := key m le_rfl
    have hsum : ((m : ℚ) + 1) * dt = 5 + dt := by
      rw [add_mul, one_mul, hm]
    have hnr : ¬ (((m : ℚ) + 1) * dt ≤ p.tau_ref) := by
      rw [htau, hsum]
      linarith
    simp [lifRefTrajI, lifRefLTCUpdateI, hVm, hTm, hnr]

/-- Witness for C4: `tau_ref = 5`, `dt = 1`, a neuron that spiked at
`t0 = 0` and a constant integrator producing `7`: the voltage is still
frozen at `V_reset = -5` at step `3` and resumes at the integrated value
`7` at step `6` (time `t0 + 5 + dt`). -/
theorem lifRefLTC_refractory_window_witness :
    (lifRefTrajI
        { V_rest := 0, V_reset := -5, V_th := 20, R := 1, tau := 10,
          tau_ref := 5 } false (constInteg 7) (fun _ => 0) 0 1
        { V := -5, spike := true, tLastSpike := 0, refrFlag := false } 3).V
      = -5 ∧
    (lifRefTrajI
        { V_rest := 0, V_reset := -5, V_th := 20, R := 1, tau := 10,
          tau_ref := 5 } false (constInteg 7) (fun _ => 0) 0 1
        { V := -5, spike := true, tLastSpike := 0, refrFlag := false } 6).V
      = 7 := by
  have h := (lifRefLTC_refractory_window
      { V_rest := 0, V_reset := -5, V_th := 20, R := 1, tau := 10,
        tau_ref := 5 } false (constInteg 7)).2.2 (fun _ => 0) 0 1 5 false
      rfl (by norm_num) (by norm_num) (by norm_num)
  refine ⟨h.1 3 (by norm_num) (by norm_num), ?_⟩
  have h2 := h.2
  norm_num [constInteg] at h2
  exact h2

/-- C5.  `LifRefLTC`: in both modes the committed `t_last_spike` is the
current time `t` exactly where a spike occurred in this step (committed
spike `true` in inference mode, spike value `> 0` in training mode) and
the previous value elsewhere; and the spike/reset stage runs
independently of the refractory gate — a refractory neuron whose frozen
voltage reaches `V_th` still spikes and has `t_last_spike` set to `t`. -/
theorem lifRefLTC_tLastSpike_commit (p : LifRefParams)
    (refVar detachSpk : Bool) (spkFun : ℚ → ℚ)
    (integ : ℚ → ℚ → ℚ → ℚ → ℚ) :
    (∀ t dt x s, (lifRefLTCUpdateI p refVar integ t dt x s).1.tLastSpike
        = (if (lifRefLTCUpdateI p refVar integ t dt x s).1.spike = true then t
           else s.tLastSpike)) ∧
    (∀ t dt x s,
        (lifRefLTCUpdateT p refVar detachSpk spkFun integ t dt x s).1.tLastSpike
          = (if 0 < (lifRefLTCUpdateT p refVar detachSpk spkFun integ
                      t dt x s).1.spike
             then t else s.tLastSpike)) ∧
    (∀ t dt x s, t - s.tLastSpike ≤ p.tau_ref → p.V_th ≤ s.V →
        (lifRefLTCUpdateI p refVar integ t dt x s).1.spike = true ∧
        (lifRefLTCUpdateI p refVar integ t dt x s).1.tLastSpike = t) := by
  refine ⟨?_, ?_, ?_⟩
  · intro t dt x s
    rfl
  · intro t dt x s
    cases detachSpk <;> simp [lifRefLTCUpdateT, stopGradient, stopGradientB]
  · intro t dt x s h1 h2
    simp [lifRefLTCUpdateI, h1, h2]

/-- Witness for C5: a refractory neuron (`t - t_last_spike = 3 ≤ 5`)
whose frozen voltage `25` exceeds `V_th = 20` spikes, and its
`t_last_spike` is set to the current time `3`. -/
theorem lifRefLTC_tLastSpike_commit_witness :
    (lifRefLTCUpdateI
        { V_rest := 0, V_reset := -5, V_th := 20, R := 1, tau := 10,
          tau_ref := 5 } false (constInteg 0) 3 1 0
        { V := 25, spike := false, tLastSpike := 0, refrFlag := false }).1.spike
      = true ∧
    (lifRefLTCUpdateI
        { V_rest := 0, V_reset := -5, V_th := 20, R := 1, tau := 10,
          tau_ref := 5 } false (constInteg 0) 3 1 0
        { V := 25, spike := false, tLastSpike := 0, refrFlag := false }).1.tLastSpike
      = 3 :=
  (lifRefLTC_tLastSpike_commit
      { V_rest := 0, V_reset := -5, V_th := 20, R := 1, tau := 10,
        tau_ref := 5 } false false id (constInteg 0)).2.2 3 1 0
    { V := 25, spike := false, tLastSpike := 0, refrFlag := false }
    (by norm_num) (by norm_num)

/-- C7 counterexample.  In training mode the Gif threshold reset is a
soft blend, not a max-clamp: with the spec-compliant surrogate `softStep`
and the constructor-default parameters, a full spike (`spike = 1`) with
decayed threshold `-70` commits `V_th = -64.5`, which is strictly below
`V_th_reset = -60` and differs from `max V_th_reset (-70) = -60`.  This
refutes the claim's "in every mode". -/
theorem gif_threshold_clamp_counterexample :
    ((gifLTCUpdateT gifDefaultParams softStep false
        (constInteg4 0 0 (-70) 70) 0 1 0
        { I1 := 0, I2 := 0, Vth := -30, V := 0, spike := 0 }).1.spike = 1) ∧
    ((gifLTCUpdateT gifDefaultParams softStep false
        (constInteg4 0 0 (-70) 70) 0 1 0
        { I1 := 0, I2 := 0, Vth := -30, V := 0, spike := 0 }).1.Vth
      = -129/2) ∧
    ¬ (gifDefaultParams.V_th_reset ≤
        (gifLTCUpdateT gifDefaultParams softStep false
          (constInteg4 0 0 (-70) 70) 0 1 0
          { I1 := 0, I2 := 0, Vth := -30, V := 0, spike := 0 }).1.Vth) ∧
    (gifLTCUpdateT gifDefaultParams softStep false
        (constInteg4 0 0 (-70) 70) 0 1 0
        { I1 := 0, I2 := 0, Vth := -30, V := 0, spike := 0 }).1.Vth
      ≠ max gifDefaultParams.V_th_reset (-70) := by
  refine ⟨?_, ?_, ?_, ?_⟩ <;>
    norm_num [gifLTCUpdateT, gifDefaultParams, constInteg4, softStep,
      stopGradient, min_def, max_def]

/-- C7 amended.  In inference mode, on a spike the committed dynamic
threshold is the elementwise maximum of the decayed (integrated)
threshold and the floor `V_th_reset` — hence never below `V_th_reset` —
and without a spike the integrated threshold is committed unchanged; in
training mode the committed threshold is instead the soft blend
`V_th + spk_fun(V_th_reset - V_th) * spike * (V_th_reset - V_th)` on the
integrated threshold. -/
theorem gif_threshold_clamp_amended (p : GifParams) (spkFun : ℚ → ℚ)
    (detachSpk : Bool)
    (integ : ℚ → ℚ → ℚ → ℚ → ℚ → ℚ → ℚ → ℚ × ℚ × ℚ × ℚ) (t dt x : ℚ)
    (sI : GifStateI) (sT : GifStateT) :
    ((gifLTCUpdateI p integ t dt x sI).1.Vth
       = (if (gifLTCUpdateI p integ t dt x sI).1.spike = true
          then max p.V_th_reset (integ sI.I1 sI.I2 sI.Vth sI.V t x dt).2.2.1
          else (integ sI.I1 sI.I2 sI.Vth sI.V t x dt).2.2.1)) ∧
    ((gifLTCUpdateI p integ t dt x sI).1.spike = true →
        p.V_th_reset ≤ (gifLTCUpdateI p integ t dt x sI).1.Vth) ∧
    ((gifLTCUpdateT p spkFun detachSpk integ t dt x sT).1.Vth
       = (integ sT.I1 sT.I2 sT.Vth sT.V t x dt).2.2.1
         + spkFun (p.V_th_reset - (integ sT.I1 sT.I2 sT.Vth sT.V t x dt).2.2.1)
           * (gifLTCUpdateT p spkFun detachSpk integ t dt x sT).1.spike
           * (p.V_th_reset - (integ sT.I1 sT.I2 sT.Vth sT.V t x dt).2.2.1)) := by
  refine ⟨rfl, ?_, ?_⟩
  · intro hs
    simp only [gifLTCUpdateI] at hs ⊢
    rw [if_pos hs]
    exact le_max_left _ _
  · cases detachSpk <;> simp only [gifLTCUpdateT, stopGradient]

/-- Witness for C7 amended: in inference mode with the default
parameters, a spiking neuron with decayed threshold `-70` commits
`max (-60) (-70) = -60`, which is not below `V_th_reset`. -/
theorem gif_threshold_clamp_amended_witness :
    gifDefaultParams.V_th_reset ≤
      (gifLTCUpdateI gifDefaultParams (constInteg4 0 0 (-70) 70) 0 1 0
        { I1 := 0, I2 := 0, Vth := -30, V := 0, spike := false }).1.Vth :=
  (gif_threshold_clamp_amended gifDefaultParams id false
      (constInteg4 0 0 (-70) 70) 0 1 0
      { I1 := 0, I2 := 0, Vth := -30, V := 0, spike := false }
      { I1 := 0, I2 := 0, Vth := -30, V := 0, spike := 0 }).2.1
    (by norm_num [gifLTCUpdateI, constInteg4])

/-- C9.  The refractory gate freezes only the membrane potential: in each
refractory variant with auxiliary state (`w` in `AdExIFRefLTC`, `u` in
`IzhikevichRefLTC`, `I1`/`I2`/`V_th` in `GifRefLTC`), a neuron inside its
refractory window (and, subthreshold, not spiking this step) commits the
integrator-advanced auxiliary variables while its voltage is replaced by
the pre-step value. -/
theorem refractory_gate_freezes_only_V (pA : AdExRefParams)
    (pZ : IzhRefParams) (pG : GifRefParams)
    (refVarA refVarZ refVarG : Bool)
    (integ2 : ℚ → ℚ → ℚ → ℚ → ℚ → ℚ × ℚ)
    (integ4 : ℚ → ℚ → ℚ → ℚ → ℚ → ℚ → ℚ → ℚ × ℚ × ℚ × ℚ) (t dt x : ℚ)
    (sA : AdExRefStateI) (sZ : IzhRefStateI) (sG : GifRefStateI) :
    (t - sA.tLastSpike ≤ pA.tau_ref → sA.V < pA.V_th →
        (adExIFRefLTCUpdateI pA refVarA integ2 t dt x sA).1.V = sA.V ∧
        (adExIFRefLTCUpdateI pA refVarA integ2 t dt x sA).1.w
          = (integ2 sA.V sA.w t x dt).2) ∧
    (t - sZ.tLastSpike ≤ pZ.tau_ref → sZ.V < pZ.V_th →
        (izhikevichRefLTCUpdateI pZ refVarZ integ2 t dt x sZ).1.V = sZ.V ∧
        (izhikevichRefLTCUpdateI pZ refVarZ integ2 t dt x sZ).1.u
          = (integ2 sZ.V sZ.u t x dt).2) ∧
    (t - sG.tLastSpike ≤ pG.tau_ref → sG.V < sG.Vth →
        (gifRefLTCUpdateI pG refVarG integ4 t dt x sG).1.V = sG.V ∧
        (gifRefLTCUpdateI pG refVarG integ4 t dt x sG).1.I1
          = (integ4 sG.I1 sG.I2 sG.Vth sG.V t x dt).1 ∧
        (gifRefLTCUpdateI pG refVarG integ4 t dt x sG).1.I2
          = (integ4 sG.I1 sG.I2 sG.Vth sG.V t x dt).2.1 ∧
        (gifRefLTCUpdateI pG refVarG integ4 t dt x sG).1.Vth
          = (integ4 sG.I1 sG.I2 sG.Vth sG.V t x dt).2.2.1) := by
  refine ⟨?_, ?_, ?_⟩
  · intro h1 h2
    simp [adExIFRefLTCUpdateI, h1, not_le.mpr h2]
  · intro h1 h2
    simp [izhikevichRefLTCUpdateI, h1, not_le.mpr h2]
  · intro h1 h2
    simp [gifRefLTCUpdateI, h1, not_le.mpr h2]

/-- Witness for C9 at concrete inputs: refractory neurons (`t = 3`,
`t_last_spike = 0`, `tau_ref = 5`) in all three families keep their
pre-step voltage while committing the integrator's auxiliary outputs. -/
theorem refractory_gate_freezes_only_V_witness :
    ((adExIFRefLTCUpdateI
        { V_rest := -65, V_reset := -68, V_th := -30, V_T := -599/10,
          delta_T := 87/25, a := 1, b := 1, tau := 10, tau_w := 30,
          R := 1, tau_ref := 5 } false (constInteg2 (-50) 11) 3 1 0
        { V := -60, w := 2, spike := false, tLastSpike := 0,
          refrFlag := false }).1.V = -60 ∧
      (adExIFRefLTCUpdateI
        { V_rest := -65, V_reset := -68, V_th := -30, V_T := -599/10,
          delta_T := 87/25, a := 1, b := 1, tau := 10, tau_w := 30,
          R := 1, tau_ref := 5 } false (constInteg2 (-50) 11) 3 1 0
        { V := -60, w := 2, spike := false, tLastSpike := 0,
          refrFlag := false }).1.w = 11) ∧
    ((izhikevichRefLTCUpdateI
        { V_th := 30, a := 1/50, b := 1/5, c := -65, d := 8, tau := 10,
          R := 1, tau_ref := 5 } false (constInteg2 (-50) 11) 3 1 0
        { V := -60, u := 2, spike := false, tLastSpike := 0,
          refrFlag := false }).1.V = -60 ∧
      (izhikevichRefLTCUpdateI
        { V_th := 30, a := 1/50, b := 1/5, c := -65, d := 8, tau := 10,
          R := 1, tau_ref := 5 } false (constInteg2 (-50) 11) 3 1 0
        { V := -60, u := 2, spike := false, tLastSpike := 0,
          refrFlag := false }).1.u = 11) ∧
    ((gifRefLTCUpdateI
        { V_rest := -70, V_reset := -70, V_th_inf := -50, V_th_reset := -60,
          R := 20, tau := 20, a := 0, b := 1/100, k1 := 1/5, k2 := 1/50,
          R1 := 0, R2 := 1, A1 := 0, A2 := 0, tau_ref := 5 } false
        (constInteg4 3 4 5 6) 3 1 0
        { I1 := 0, I2 := 0, Vth := 50, V := 1, spike := false,
          tLastSpike := 0, refrFlag := false }).1.V = 1 ∧
      (gifRefLTCUpdateI
        { V_rest := -70, V_reset := -70, V_th_inf := -50, V_th_reset := -60,
          R := 20, tau := 20, a := 0, b := 1/100, k1 := 1/5, k2 := 1/50,
          R1 := 0, R2 := 1, A1 := 0, A2 := 0, tau_ref := 5 } false
        (constInteg4 3 4 5 6) 3 1 0
        { I1 := 0, I2 := 0, Vth := 50, V := 1, spike := false,
          tLastSpike := 0, refrFlag := false }).1.I1 = 3) := by
  refine ⟨?_, ?_, ?_⟩
  · exact (refractory_gate_freezes_only_V
      { V_rest := -65, V_reset := -68, V_th := -30, V_T := -599/10,
        delta_T := 87/25, a := 1, b := 1, tau := 10, tau_w := 30,
        R := 1, tau_ref := 5 }
      { V_th := 30, a := 1/50, b := 1/5, c := -65, d := 8, tau := 10,
        R := 1, tau_ref := 5 }
      { V_rest := -70, V_reset := -70, V_th_inf := -50, V_th_reset := -60,
        R := 20, tau := 20, a := 0, b := 1/100, k1 := 1/5, k2 := 1/50,
        R1 := 0, R2 := 1, A1 := 0, A2 := 0, tau_ref := 5 }
      false false false (constInteg2 (-50) 11) (constInteg4 3 4 5 6) 3 1 0
      { V := -60, w := 2, spike := false, tLastSpike := 0, refrFlag := false }
      { V := -60, u := 2, spike := false, tLastSpike := 0, refrFlag := false }
      { I1 := 0, I2 := 0, Vth := 50, V := 1, spike := false,
        tLastSpike := 0, refrFlag := false }).1 (by norm_num) (by norm_num)
  · exact (refractory_gate_freezes_only_V
      { V_rest := -65, V_reset := -68, V_th := -30, V_T := -599/10,
        delta_T := 87/25, a := 1, b := 1, tau := 10, tau_w := 30,
        R := 1, tau_ref := 5 }
      { V_th := 30, a := 1/50, b := 1/5, c := -65, d := 8, tau := 10,
        R := 1, tau_ref := 5 }
      { V_rest := -70, V_reset := -70, V_th_inf := -50, V_th_reset := -60,
        R := 20, tau := 20, a := 0, b := 1/100, k1 := 1/5, k2 := 1/50,
        R1 := 0, R2 := 1, A1 := 0, A2 := 0, tau_ref := 5 }
      false false false (constInteg2 (-50) 11) (constInteg4 3 4 5 6) 3 1 0
      { V := -60, w := 2, spike := false, tLastSpike := 0, refrFlag := false }
      { V := -60, u := 2, spike := false, tLastSpike := 0, refrFlag := false }
      { I1 := 0, I2 := 0, Vth := 50, V := 1, spike := false,
        tLastSpike := 0, refrFlag := false }).2.1 (by norm_num) (by norm_num)
  · have h := (refractory_gate_freezes_only_V
      { V_rest := -65, V_reset := -68, V_th := -30, V_T := -599/10,
        delta_T := 87/25, a := 1, b := 1, tau := 10, tau_w := 30,
        R := 1, tau_ref := 5 }
      { V_th := 30, a := 1/50, b := 1/5, c := -65, d := 8, tau := 10,
        R := 1, tau_ref := 5 }
      { V_rest := -70, V_reset := -70, V_th_inf := -50, V_th_reset := -60,
        R := 20, tau := 20, a := 0, b := 1/100, k1 := 1/5, k2 := 1/50,
        R1 := 0, R2 := 1, A1 := 0, A2 := 0, tau_ref := 5 }
      false false false (constInteg2 (-50) 11) (constInteg4 3 4 5 6) 3 1 0
      { V := -60, w := 2, spike := false, tLastSpike := 0, refrFlag := false }
      { V := -60, u := 2, spike := false, tLastSpike := 0, refrFlag := false }
      { I1 := 0, I2 := 0, Vth := 50, V := 1, spike := false,
        tLastSpike := 0, refrFlag := false }).2.2 (by norm_num) (by norm_num)
    exact ⟨h.1, h.2.1⟩

/-- C10.  `LifRefLTC`, training mode: the refractory bookkeeping treats a
spike as having occurred exactly when the (possibly detached) surrogate
output is strictly positive — `t_last_spike` becomes `t` and (when
`ref_var`) the refractory flag is raised precisely where
`spk_fun(V_gated - V_th) > 0`, regardless of whether the voltage crossed
the threshold and however small the graded value is. -/
theorem lifRefLTC_training_spike_bookkeeping (p : LifRefParams)
    (refVar detachSpk : Bool) (spkFun : ℚ → ℚ)
    (integ : ℚ → ℚ → ℚ → ℚ → ℚ) (t dt x : ℚ) (s : LifRefStateT) :
    ((lifRefLTCUpdateT p refVar detachSpk spkFun integ t dt x s).1.tLastSpike
       = (if 0 < spkFun ((if t - s.tLastSpike ≤ p.tau_ref then s.V
                          else integ s.V t x dt) - p.V_th)
          then t else s.tLastSpike)) ∧
    (refVar = true →
      (lifRefLTCUpdateT p refVar detachSpk spkFun integ t dt x s).1.refrFlag
        = (decide (t - s.tLastSpike ≤ p.tau_ref)
           || decide (0 < spkFun ((if t - s.tLastSpike ≤ p.tau_ref then s.V
                                   else integ s.V t x dt) - p.V_th)))) ∧
    (0 < spkFun ((if t - s.tLastSpike ≤ p.tau_ref then s.V
                  else integ s.V t x dt) - p.V_th) →
      (lifRefLTCUpdateT p refVar detachSpk spkFun integ t dt x s).1.tLastSpike
        = t ∧
      (refVar = true →
        (lifRefLTCUpdateT p refVar detachSpk spkFun integ t dt x s).1.refrFlag
          = true)) := by
  refine ⟨?_, ?_, ?_⟩
  · cases detachSpk <;>
      simp [lifRefLTCUpdateT, stopGradient, stopGradientB]
  · intro hrv
    subst hrv
    cases detachSpk <;>
      simp [lifRefLTCUpdateT, stopGradient, stopGradientB]
  · intro hpos
    simp only [sub_le_iff_le_add] at hpos
    have hpos2 := not_le.mpr hpos
    constructor
    · cases detachSpk <;>
        simp [lifRefLTCUpdateT, stopGradient, stopGradientB, hpos, hpos2]
    · intro hrv
      subst hrv
      cases detachSpk <;>
        simp [lifRefLTCUpdateT, stopGradient, stopGradientB, hpos, hpos2]

/-- Witness for C10: a non-refractory neuron far below threshold whose
surrogate output is the small constant `1/100 > 0` still has
`t_last_spike` set to the current time `0` and its refractory flag
raised. -/
theorem lifRefLTC_training_spike_bookkeeping_witness :
    (lifRefLTCUpdateT
        { V_rest := 0, V_reset := -5, V_th := 20, R := 1, tau := 10,
          tau_ref := 5 } true false (fun _ => 1/100) (constInteg 0) 0 1 0
        { V := 0, spike := 0, tLastSpike := -10000000,
          refrFlag := false }).1.tLastSpike = 0 ∧
    (lifRefLTCUpdateT
        { V_rest := 0, V_reset := -5, V_th := 20, R := 1, tau := 10,
          tau_ref := 5 } true false (fun _ => 1/100) (constInteg 0) 0 1 0
        { V := 0, spike := 0, tLastSpike := -10000000,
          refrFlag := false }).1.refrFlag = true := by
  have h := (lifRefLTC_training_spike_bookkeeping
      { V_rest := 0, V_reset := -5, V_th := 20, R := 1, tau := 10,
        tau_ref := 5 } true false (fun _ => 1/100) (constInteg 0) 0 1 0
      { V := 0, spike := 0, tLastSpike := -10000000,
        refrFlag := false }).2.2 (by norm_num)
  exact ⟨h.1, h.2 rfl⟩

end BrainPy
